import Mathlib

/-!
Verification development for the magic-pipe pull-request review pipeline.

The Python sources embedded here:
  - `src/code_reviewer.py`   (class `CodeReviewer`, the completion client)
  - `src/reviewers/llm_reviewer.py` (class `LLMReviewer`, per-file loop)
  - `src/review_manager.py`  (class `ReviewManager`, orchestrator + formatter)
  - `src/github_action.py`   (process entry point `main`)

External effects (the OpenAI completion endpoint, the git repository, the
GitHub REST delivery call) are modelled by oracles: a `Nat → CallOutcome`
attempt oracle for the completion client, and a `World` record for the
orchestrator-level run.  Control flow, branch conditions, retry counting and
every produced string are translated directly from the Python code.
-/

set_option maxHeartbeats 1000000

/-- Python `"\n".join(xs)`: interleave the list elements with newlines. -/
def joinNL : List String → String
  | [] => ""
  | [a] => a
  | a :: b :: rest => a ++ "\n" ++ joinNL (b :: rest)

/-- Substring occurrence test on character lists (Python `pat in s`). -/
def listContainsSub : List Char → List Char → Bool
  | _, [] => true
  | [], _ :: _ => false
  | c :: cs, p :: ps => (List.isPrefixOf (p :: ps) (c :: cs)) || listContainsSub cs (p :: ps)

/-- Python `pat in s` for strings. -/
def containsSub (s pat : String) : Bool :=
  listContainsSub s.data pat.data

/-- Python `s.lower()` (ASCII case folding, which covers every keyword used). -/
def strToLower (s : String) : String :=
  ⟨s.data.map Char.toLower⟩

/-- Python `s.strip()`: drop leading and trailing whitespace. -/
def strTrim (s : String) : String :=
  ⟨((s.data.dropWhile Char.isWhitespace).reverse.dropWhile Char.isWhitespace).reverse⟩

/--
Python `s.split(sep)` for a non-empty separator, written with an explicit
fuel argument (one unit per consumed character) so that it is structural.
-/
def splitOnFuel (sep : List Char) : Nat → List Char → List Char → List (List Char)
  | _, [], acc => [acc.reverse]
  | 0, cs, acc => [acc.reverse ++ cs]
  | fuel + 1, c :: cs, acc =>
    if sep.isPrefixOf (c :: cs) then
      acc.reverse :: splitOnFuel sep fuel (List.drop (sep.length - 1) cs) []
    else
      splitOnFuel sep fuel cs (c :: acc)

/-- Python `s.split(sep)` on strings. -/
def strSplitOn (s sep : String) : List String :=
  (splitOnFuel sep.data s.data.length s.data []).map String.mk

/-- Python truthiness of `os.getenv(k)`: `None` and the empty string are falsy. -/
def optTruthy : Option String → Bool
  | none => false
  | some s => !s.data.isEmpty

namespace CodeReviewer

/-- `self.max_retries = 3` in `CodeReviewer.__init__`. -/
def max_retries : Nat := 3

/--
The "no issues" sentinel phrases recognised in `CodeReviewer.review`
(`code_reviewer.py` lines 91-95); matching is exact after `strip()`.
-/
def sentinels : List String :=
  ["No issues found.",
   "No issues found",
   "Nenhum problema encontrado.",
   "Nenhum problema encontrado",
   "Sem problemas encontrados"]

/-- Error string returned on `AuthenticationError` (line 102). -/
def authErrorMsg : String :=
  "⚠️ Erro: Chave de API OpenAI inválida. Por favor, verifique sua variável de ambiente OPENAI_API_KEY."

/-- Error string returned on `NotFoundError` (line 105); names the configured model. -/
def notFoundErrorMsg (model : String) : String :=
  "⚠️ Erro: O modelo \x27" ++ model ++ "\x27 não está disponível. Por favor, tente usar \x27gpt-4\x27 ou verifique seu acesso à conta OpenAI."

/-- Error string returned on `RateLimitError` (line 108). -/
def rateLimitErrorMsg : String :=
  "⚠️ Erro: Cota da API OpenAI excedida. Por favor, verifique seus detalhes de faturamento em https://platform.openai.com/account/billing"

/-- Error string returned after exhausting all retry attempts (line 127). -/
def finalErrorMsg (lastError : String) : String :=
  "⚠️ Erro ao realizar revisão de código após " ++ toString max_retries ++ " tentativas: " ++ lastError

/--
One outcome of `self.client.chat.completions.create(...)`: a returned
content string or one of the exception classes caught in `review`.
Each exception constructor carries `str(e)`.
-/
inductive CallOutcome where
  | success (content : String)
  | authError (msg : String)
  | notFoundError (msg : String)
  | rateLimitError (msg : String)
  | connectionError (msg : String)
  | otherError (msg : String)
deriving DecidableEq

/--
Result of `CodeReviewer.review` instrumented with the number of provider
invocations and the number of `asyncio.sleep(self.retry_delay)` calls, so
that the retry-bound and no-retry claims can be stated.
-/
structure ReviewTrace where
  result : String
  calls : Nat
  sleeps : Nat
deriving DecidableEq

/--
The `while retry_count < self.max_retries` loop of `CodeReviewer.review`
(`code_reviewer.py` lines 61-127).  `remaining` is `max_retries - retry_count`,
`attempt` is `retry_count` (the index handed to the attempt oracle), and
`lastError` is `str(last_error)`.  A successful response is filtered against
the sentinel set (lines 91-96); authentication, model-not-found and
rate-limit errors return immediately; connection and unclassified errors
sleep (only when another attempt is left, lines 113-115 and 121-123) and retry.
-/
def reviewGo (provider : Nat → CallOutcome) (model : String) :
    Nat → Nat → String → ReviewTrace
  | 0, _, lastError => ⟨finalErrorMsg lastError, 0, 0⟩
  | remaining + 1, attempt, _ =>
    match provider attempt with
    | .success content =>
        ⟨if strTrim content ∈ sentinels then "" else content, 1, 0⟩
    | .authError _ => ⟨authErrorMsg, 1, 0⟩
    | .notFoundError _ => ⟨notFoundErrorMsg model, 1, 0⟩
    | .rateLimitError _ => ⟨rateLimitErrorMsg, 1, 0⟩
    | .connectionError e =>
        let t := reviewGo provider model remaining (attempt + 1) e
        ⟨t.result, t.calls + 1, t.sleeps + (if remaining = 0 then 0 else 1)⟩
    | .otherError e =>
        let t := reviewGo provider model remaining (attempt + 1) e
        ⟨t.result, t.calls + 1, t.sleeps + (if remaining = 0 then 0 else 1)⟩

/--
`CodeReviewer.review`: run the retry loop with `retry_count = 0` and
`last_error = None` (printed as `"None"` by `str`).
-/
def review (provider : Nat → CallOutcome) (model : String) : ReviewTrace :=
  reviewGo provider model max_retries 0 "None"

end CodeReviewer

/--
The environment-variable surface read by the pipeline (`os.getenv` calls in
`code_reviewer.py`, `review_manager.py`, `llm_reviewer.py`); `none` models an
unset variable.
-/
structure Env where
  openai_api_key : Option String
  openai_model : Option String
  github_token : Option String
  github_repository : Option String
  pr_number : Option String
  pr_base_sha : Option String
  pr_head_sha : Option String
  detailed_reviews : Option String

/-- `os.getenv('DETAILED_REVIEWS', 'false').lower() == 'true'`. -/
def detailedFlag (env : Env) : Bool :=
  strToLower (env.detailed_reviews.getD "false") = "true"

/--
Oracle for the external effects of one run: whether `git.Repo(repo_path)`
raises (and with which message), whether the diff computation in
`get_changed_files` raises, the changed-file list the diff yields, the result
of fetching-and-reviewing one file (`Except.error e` models an exception with
message `str(e)` anywhere inside the per-file `try` block of
`process_changes`, `Except.ok s` the string returned by
`CodeReviewer.review`), and the delivery result (`Except.ok b` for an HTTP
response where `status == 201` is `b`, `Except.error e` for a raised network
exception).
-/
structure World where
  initRepoError : Option String
  diffRaises : Bool
  changedFiles : List String
  fileReview : String → Except String String
  sink : Except String Bool

/--
Trace of external service contacts during a run: one `fetch` for the
changed-file enumeration, one `review p` per file handed to the completion
client, one `deliver text` per attempted HTTP post of the report.
-/
inductive Event where
  | fetch
  | review (path : String)
  | deliver (text : String)
deriving DecidableEq

/-- One entry of the `reviews` list built by `LLMReviewer.process_changes`:
the Python dict `{"file_path": ..., "review": ...}`. -/
structure Review where
  file_path : String
  review : String
deriving DecidableEq

namespace LLMReviewer

/--
`LLMReviewer.get_changed_files` (`llm_reviewer.py` lines 16-43): returns `[]`
when the repo is not initialized, when `PR_BASE_SHA` or `PR_HEAD_SHA` is
unset or empty, or when the diff computation raises; otherwise the list of
changed file paths.
-/
def get_changed_files (repoSome : Bool) (env : Env) (w : World) : List String :=
  if !repoSome then []
  else if !(optTruthy env.pr_base_sha) || !(optTruthy env.pr_head_sha) then []
  else if w.diffRaises then []
  else w.changedFiles

/--
The `for file_path in files` loop of `LLMReviewer.process_changes`
(lines 55-86): an exception while handling one file is caught and recorded
as an error-text entry tagged with the path; a returned review is recorded
only when non-empty after `strip()`.
-/
def processLoop (w : World) : List String → List Review
  | [] => []
  | fp :: rest =>
    (match w.fileReview fp with
     | .error e => [⟨fp, "⚠️ Error reviewing file: " ++ e⟩]
     | .ok review => if (strTrim review).data.isEmpty then [] else [⟨fp, review⟩])
    ++ processLoop w rest

/-- `LLMReviewer.process_changes` (lines 45-88): `[]` when the repo is not
initialized, otherwise the per-file loop. -/
def process_changes (w : World) (repoSome : Bool) (files : List String) : List Review :=
  if !repoSome then [] else processLoop w files

end LLMReviewer

namespace ReviewManager

/-- Python `path.split('/')[-1]` — the file name without its directory. -/
def basename (p : String) : String :=
  (strSplitOn p "/").getLastD ""

/--
Summary-mode bullet text for one review (`review_manager.py` lines 57-66):
first paragraph, truncated to the first sentence when longer than 200
characters.
-/
def summaryPoint (file_name review_text : String) : String :=
  let first_para :=
    if containsSub review_text "\n\n" then (strSplitOn review_text "\n\n").headD review_text
    else review_text
  if first_para.length > 200 then
    "**`" ++ file_name ++ "`**: " ++ (strSplitOn first_para ". ").headD first_para ++ "."
  else
    "**`" ++ file_name ++ "`**: " ++ first_para

/-- The summary points collected across the review list (lines 56-66). -/
def summaryPoints : List Review → List String
  | [] => []
  | r :: rest => summaryPoint (basename r.file_path) r.review :: summaryPoints rest

/-- Detailed-mode section for one review (lines 49-55). -/
def detailedSections : List Review → List String
  | [] => []
  | r :: rest =>
    ["## 🔍 `" ++ basename r.file_path ++ "`\n", r.review ++ "\n", "---\n"]
    ++ detailedSections rest

/-- `any(str(i) in line for i in range(1, 1000))` (line 85). -/
def hasNum (line : String) : Bool :=
  (List.range 999).any (fun i => containsSub line (toString (i + 1)))

/--
The keyword heuristic selecting "recommendation" lines
(`review_manager.py` lines 84-91).  Python operator precedence makes the
condition: contains "linha", or contains "line", or (has a number 1-999 and
contains one of the suggestion keywords).
-/
def recCondition (line : String) : Bool :=
  let lower := strToLower line
  containsSub lower "linha" || containsSub lower "line" ||
    (hasNum line &&
      (containsSub lower "sugiro" || containsSub lower "recomendo" ||
       containsSub lower "considere" || containsSub lower "deveria" ||
       containsSub lower "poderia" || containsSub lower "melhor" ||
       containsSub lower "issue" || containsSub lower "problema" ||
       containsSub lower "should" || containsSub lower "could" ||
       containsSub lower "consider" || containsSub lower "recommend"))

/-- The inner `for line in lines` loop of the recommendation scan (lines 82-94). -/
def keyRecsOfLines (file_name : String) : List String → List String
  | [] => []
  | line :: rest =>
    (if recCondition line then ["**" ++ file_name ++ "**: " ++ strTrim line] else [])
    ++ keyRecsOfLines file_name rest

/-- The outer recommendation scan over all reviews (lines 75-94). -/
def key_recommendations : List Review → List String
  | [] => []
  | r :: rest =>
    keyRecsOfLines (basename r.file_path) (strSplitOn r.review "\n")
    ++ key_recommendations rest

/-- The four fallback bullets used when the scan finds nothing (lines 102-107). -/
def staticRecommendations : List String :=
  ["- Mantenha a consistência dos padrões de código no projeto\n",
   "- Considere adicionar testes para novas funcionalidades\n",
   "- Verifique tratamento de erros e casos extremos\n",
   "- Documente interfaces públicas e APIs importantes\n"]

/--
The "Principais Recomendações" block (lines 96-107): header plus either the
first five scanned recommendations or the static fallback bullets.
-/
def recommendationsSection (reviews : List Review) : List String :=
  let key_recs := key_recommendations reviews
  "## 💡 Principais Recomendações\n" ::
    (if key_recs.isEmpty then staticRecommendations
     else (key_recs.take 5).map (fun r => "- " ++ r ++ "\n"))

/-- The `report` list built by `format_review_report` (lines 37-112). -/
def reportLines (detailed : Bool) (reviews : List Review) (total_files : Nat) :
    List String :=
  ["# 🎉 Revisão de Código\n",
   "Analisei " ++ toString total_files ++ " arquivo(s) neste PR. Aqui está o resumo das principais observações:\n"]
  ++ (if detailed then detailedSections reviews
      else "## 📝 Resumo por Arquivo\n"
        :: (summaryPoints reviews).map (fun point => "- " ++ point ++ "\n"))
  ++ recommendationsSection reviews
  ++ ["\n---\n",
      "✨ *Análise gerada automaticamente. Para revisão detalhada de um arquivo específico, mencione-o nos comentários.* ✨"]

/-- `ReviewManager.format_review_report`: `"\n".join(report)`. -/
def format_review_report (detailed : Bool) (reviews : List Review) (total_files : Nat) :
    String :=
  joinNL (reportLines detailed reviews total_files)

end ReviewManager

namespace ReviewManager

/--
The state built by `ReviewManager.__init__` (`review_manager.py` lines 9-14)
together with the model name selected by the nested `CodeReviewer`
constructor.  Construction is only reached when `OPENAI_API_KEY` is truthy
(see `mkReviewManager`).
-/
structure ReviewManagerS where
  github_token : Option String
  repo_owner : String
  repo_name : String
  pr_number : Option String
  model : String
deriving DecidableEq

/--
`ReviewManager()` construction: `LLMReviewer()` constructs a `CodeReviewer`,
whose `__init__` raises `ValueError` when `OPENAI_API_KEY` is unset or empty
(`code_reviewer.py` lines 20-23); otherwise the GitHub fields are read with
`split('/')` defaults exactly as in `review_manager.py` lines 11-14.
-/
def mkReviewManager (env : Env) : Except String ReviewManagerS :=
  if optTruthy env.openai_api_key then
    .ok { github_token := env.github_token,
          repo_owner := (strSplitOn (env.github_repository.getD "") "/").headD "",
          repo_name := (strSplitOn (env.github_repository.getD "") "/").getLastD "",
          pr_number := env.pr_number,
          model := env.openai_model.getD "gpt-4" }
  else
    .error "OPENAI_API_KEY environment variable is not set"

/-- The run outcome dictionary returned by `process_review`. -/
structure Outcome where
  success : Bool
  review_text : String
deriving DecidableEq

/-- The short-circuit report for an empty changed-file list (lines 130-133). -/
def nothingToReviewText : String :=
  "# 🎉 Revisão de Código\n\nNenhum arquivo para revisar neste PR."

/-- The fallback error document built by the top-level handler
(lines 151-157): the `review_text` for a caught exception `e`. -/
def errorDocText (e : String) : String :=
  "# ⚠️ Erro na Revisão\n\nOcorreu um erro durante o processo de revisão: Error during review process: " ++ e

/--
`ReviewManager.post_review_comment` (lines 16-30): with any of token, owner,
name or PR number falsy it returns `False` without attempting the call;
otherwise the HTTP post is attempted (recorded as a `deliver` event) and its
result — or raised exception — is the sink oracle's answer.
-/
def post_review_comment (m : ReviewManagerS) (w : World) (content : String) :
    Except String Bool × List Event :=
  if optTruthy m.github_token && !m.repo_owner.data.isEmpty
      && !m.repo_name.data.isEmpty && optTruthy m.pr_number then
    (w.sink, [Event.deliver content])
  else
    (.ok false, [])

/--
`ReviewManager.process_review` (lines 116-157), returning the outcome
dictionary and the trace of service contacts.  `initialize_repo` failure is
an exception caught by the top-level handler; an empty changed-file list
short-circuits to a success outcome; otherwise the files are reviewed, the
report formatted with `len(changed_files)` as the file count, and the report
posted only when `GITHUB_TOKEN` is truthy.  A sink exception is also caught
by the top-level handler, after the delivery attempt.
-/
def process_review (m : ReviewManagerS) (detailed : Bool) (env : Env) (w : World) :
    Outcome × List Event :=
  match w.initRepoError with
  | some e => (⟨false, errorDocText e⟩, [])
  | none =>
    let changed := LLMReviewer.get_changed_files true env w
    if changed.isEmpty then
      (⟨true, nothingToReviewText⟩, [Event.fetch])
    else
      let reviews := LLMReviewer.process_changes w true changed
      let report := format_review_report detailed reviews changed.length
      let revEvents := changed.map Event.review
      if optTruthy m.github_token then
        match post_review_comment m w report with
        | (Except.ok b, ev) => (⟨b, report⟩, Event.fetch :: revEvents ++ ev)
        | (Except.error e, ev) => (⟨false, errorDocText e⟩, Event.fetch :: revEvents ++ ev)
      else
        (⟨true, report⟩, Event.fetch :: revEvents)

end ReviewManager

namespace GithubAction

open ReviewManager

/--
The traditional-mode body of `github_action.main` (lines 20-36) up to the
exit decision: constructing `ReviewManager()` raises on a missing API key
(caught by the `except` clause, which exits with code 1, so no service is
contacted); otherwise `process_review` runs to completion.
-/
def runAction (env : Env) (w : World) : Outcome × List Event :=
  match mkReviewManager env with
  | .error e => (⟨false, e⟩, [])
  | .ok m => process_review m (detailedFlag env) env w

/--
`github_action.py` line 32 binds the dictionary returned by
`process_review` to `success` and tests `if not success:`.  In Python a
dictionary with keys is truthy, and the returned dictionary always carries
the two keys `success` and `review_text`, so this test is `False` on every
outcome — including outcomes whose `success` entry is `False`.
-/
def dict_truthy (_outcome : Outcome) : Bool := true

/--
The process exit code of `github_action.main` (traditional mode): 1 when an
exception escapes (in particular `ReviewManager()` construction failure),
otherwise 0 unless the returned dictionary is falsy — which never happens.
-/
def mainAction (env : Env) (w : World) : Nat :=
  match mkReviewManager env with
  | .error _ => 1
  | .ok m =>
    if dict_truthy (process_review m (detailedFlag env) env w).fst then 0 else 1

end GithubAction

/-- A fully-populated environment used by concrete witnesses. -/
def envFull : Env :=
  { openai_api_key := some "sk-test",
    openai_model := none,
    github_token := some "ghtok",
    github_repository := some "owner/repo",
    pr_number := some "42",
    pr_base_sha := some "base",
    pr_head_sha := some "head",
    detailed_reviews := none }

/-- `envFull` with the forge token removed. -/
def envNoForge : Env := { envFull with github_token := none }

/-- `envFull` with the base commit identifier removed. -/
def envNoSha : Env := { envFull with pr_base_sha := none }

/-- The manager state that `mkReviewManager envFull` produces. -/
def mFull : ReviewManager.ReviewManagerS :=
  { github_token := some "ghtok", repo_owner := "owner", repo_name := "repo",
    pr_number := some "42", model := "gpt-4" }

/-- A world with one changed file, a clean review, and a failing delivery. -/
def wOneFile : World :=
  { initRepoError := none,
    diffRaises := false,
    changedFiles := ["a.py"],
    fileReview := fun _ => Except.ok "Revisar nomes de variaveis.",
    sink := Except.ok false }

/-- A world whose review of `bad.py` raises while other files succeed. -/
def wErr : World :=
  { initRepoError := none,
    diffRaises := false,
    changedFiles := ["a.py", "bad.py", "c.py"],
    fileReview := fun p => if p = "bad.py" then Except.error "boom" else Except.ok "texto",
    sink := Except.ok true }

/--
The report text that the run over `envFull`/`wOneFile` builds and hands to
the delivery sink.
-/
def reportW : String :=
  ReviewManager.format_review_report false
    (LLMReviewer.process_changes wOneFile true (LLMReviewer.get_changed_files true envFull wOneFile))
    (LLMReviewer.get_changed_files true envFull wOneFile).length

/--
C2: if the underlying completion call raises a transient/connectivity error
(connection error or unclassified exception) on every attempt, then
`CodeReviewer.review` invokes it exactly `max_retries = 3` times and returns
the terminal error string naming the attempt count (3) and the last error.
-/
theorem c2_retry_bound (provider : Nat → CodeReviewer.CallOutcome)
    (errs : Nat → String) (model : String)
    (h : ∀ n, provider n = .connectionError (errs n) ∨ provider n = .otherError (errs n)) :
    (CodeReviewer.review provider model).calls = 3 ∧
    (CodeReviewer.review provider model).result = CodeReviewer.finalErrorMsg (errs 2) := by
  have h0 := h 0; have h1 := h 1; have h2 := h 2
  rcases h0 with h0 | h0 <;> rcases h1 with h1 | h1 <;> rcases h2 with h2 | h2 <;>
    simp [CodeReviewer.review, CodeReviewer.reviewGo, CodeReviewer.max_retries, h0, h1, h2]

/-- Witness for C2 at a provider that always raises a connection error. -/
theorem c2_retry_bound_witness :
    (CodeReviewer.review (fun _ => .connectionError "Connection error.") "gpt-4").calls = 3 ∧
    (CodeReviewer.review (fun _ => .connectionError "Connection error.") "gpt-4").result =
      CodeReviewer.finalErrorMsg "Connection error." :=
  c2_retry_bound (fun _ => .connectionError "Connection error.")
    (fun _ => "Connection error.") "gpt-4" (fun _ => Or.inl rfl)

/--
C3: if the first underlying completion call raises an authentication,
model-not-found, or quota/rate-limit error, `CodeReviewer.review` invokes it
exactly once, never sleeps, and immediately returns the corresponding
explanatory error string.
-/
theorem c3_no_retry_classes (provider : Nat → CodeReviewer.CallOutcome) (model : String)
    (h : (∃ msg, provider 0 = .authError msg) ∨
         (∃ msg, provider 0 = .notFoundError msg) ∨
         (∃ msg, provider 0 = .rateLimitError msg)) :
    (CodeReviewer.review provider model).calls = 1 ∧
    (CodeReviewer.review provider model).sleeps = 0 ∧
    (CodeReviewer.review provider model).result ∈
      [CodeReviewer.authErrorMsg, CodeReviewer.notFoundErrorMsg model,
       CodeReviewer.rateLimitErrorMsg] := by
  rcases h with ⟨msg, h⟩ | ⟨msg, h⟩ | ⟨msg, h⟩ <;>
    simp [CodeReviewer.review, CodeReviewer.reviewGo, CodeReviewer.max_retries, h]

/-- Witness for C3 at a provider whose first call raises an authentication error. -/
theorem c3_no_retry_classes_witness :
    (CodeReviewer.review (fun _ => .authError "invalid api key") "gpt-4").calls = 1 ∧
    (CodeReviewer.review (fun _ => .authError "invalid api key") "gpt-4").sleeps = 0 ∧
    (CodeReviewer.review (fun _ => .authError "invalid api key") "gpt-4").result ∈
      [CodeReviewer.authErrorMsg, CodeReviewer.notFoundErrorMsg "gpt-4",
       CodeReviewer.rateLimitErrorMsg] :=
  c3_no_retry_classes (fun _ => .authError "invalid api key") "gpt-4"
    (Or.inl ⟨"invalid api key", rfl⟩)

/--
C4: when the first completion attempt succeeds with content `c`,
`CodeReviewer.review` returns the empty string exactly when `c` trimmed
equals one of the enumerated case-sensitive sentinel phrases, and returns
`c` itself (the review body) for any other content.
-/
theorem c4_sentinel_filter (provider : Nat → CodeReviewer.CallOutcome)
    (model c : String) (h : provider 0 = .success c) :
    (CodeReviewer.review provider model).result =
      (if strTrim c ∈ CodeReviewer.sentinels then "" else c) ∧
    (CodeReviewer.review provider model).calls = 1 := by
  simp [CodeReviewer.review, CodeReviewer.reviewGo, CodeReviewer.max_retries, h]

/-- Witness for C4: a whitespace-padded sentinel response yields `""`. -/
theorem c4_sentinel_filter_witness :
    (CodeReviewer.review (fun _ => .success "  No issues found.  ") "gpt-4").result = "" ∧
    (CodeReviewer.review (fun _ => .success "  No issues found.  ") "gpt-4").calls = 1 := by
  have h := c4_sentinel_filter (fun _ => .success "  No issues found.  ") "gpt-4"
    "  No issues found.  " rfl
  refine ⟨?_, h.2⟩
  rw [h.1]
  decide

/-- `"\n".join` of a non-empty tail prepends the head and a newline. -/
theorem joinNL_cons (a : String) (l : List String) (h : l ≠ []) :
    joinNL (a :: l) = a ++ "\n" ++ joinNL l := by
  cases l with
  | nil => cases h rfl
  | cons b t => rfl

/-- Appending to a non-empty string cannot produce the empty string. -/
theorem append_ne_empty_left (a b : String) (h : a ≠ "") : a ++ b ≠ "" := by
  intro hab
  apply h
  have hd := congrArg String.data hab
  simp only [String.data_append] at hd
  have hd' : a.data ++ b.data = [] := hd
  have ha : a.data = [] := (List.append_eq_nil.mp hd').1
  cases a with
  | mk data => cases ha; rfl

/-- The lines following the two header lines of a report are never empty:
the report always ends with the fixed divider and footer. -/
theorem reportLines_tail_ne_nil (d : Bool) (reviews : List Review) :
    ((if d then ReviewManager.detailedSections reviews
      else "## 📝 Resumo por Arquivo\n"
        :: (ReviewManager.summaryPoints reviews).map (fun point => "- " ++ point ++ "\n"))
     ++ ReviewManager.recommendationsSection reviews
     ++ ["\n---\n",
         "✨ *Análise gerada automaticamente. Para revisão detalhada de um arquivo específico, mencione-o nos comentários.* ✨"]) ≠ [] := by
  simp [List.append_eq_nil]

/-- Every formatted report opens with the fixed title line and the header
line that states `total_files`. -/
theorem format_header (d : Bool) (reviews : List Review) (N : Nat) :
    ∃ rest, ReviewManager.format_review_report d reviews N =
      "# 🎉 Revisão de Código\n" ++ "\n" ++
      ("Analisei " ++ toString N ++ " arquivo(s) neste PR. Aqui está o resumo das principais observações:\n") ++ "\n" ++ rest := by
  have hshape : ReviewManager.reportLines d reviews N =
      "# 🎉 Revisão de Código\n" ::
      ("Analisei " ++ toString N ++ " arquivo(s) neste PR. Aqui está o resumo das principais observações:\n") ::
      ((if d then ReviewManager.detailedSections reviews
        else "## 📝 Resumo por Arquivo\n"
          :: (ReviewManager.summaryPoints reviews).map (fun point => "- " ++ point ++ "\n"))
       ++ ReviewManager.recommendationsSection reviews
       ++ ["\n---\n",
           "✨ *Análise gerada automaticamente. Para revisão detalhada de um arquivo específico, mencione-o nos comentários.* ✨"]) := rfl
  refine ⟨joinNL ((if d then ReviewManager.detailedSections reviews
        else "## 📝 Resumo por Arquivo\n"
          :: (ReviewManager.summaryPoints reviews).map (fun point => "- " ++ point ++ "\n"))
       ++ ReviewManager.recommendationsSection reviews
       ++ ["\n---\n",
           "✨ *Análise gerada automaticamente. Para revisão detalhada de um arquivo específico, mencione-o nos comentários.* ✨"]), ?_⟩
  unfold ReviewManager.format_review_report
  rw [hshape]
  rw [joinNL_cons _ _ (by simp [List.append_eq_nil])]
  rw [joinNL_cons _ _ (reportLines_tail_ne_nil d reviews)]
  simp [String.append_assoc]

/-- A formatted report is never the empty string. -/
theorem format_ne_empty (d : Bool) (reviews : List Review) (N : Nat) :
    ReviewManager.format_review_report d reviews N ≠ "" := by
  obtain ⟨rest, hr⟩ := format_header d reviews N
  rw [hr]
  apply append_ne_empty_left
  apply append_ne_empty_left
  apply append_ne_empty_left
  apply append_ne_empty_left
  decide

/-- `post_review_comment` either attempts the HTTP post (full delivery
configuration) or silently returns `False` with no network contact. -/
theorem post_review_comment_cases (m : ReviewManager.ReviewManagerS) (w : World)
    (c : String) :
    ReviewManager.post_review_comment m w c = (w.sink, [Event.deliver c]) ∨
    ReviewManager.post_review_comment m w c = (Except.ok false, []) := by
  unfold ReviewManager.post_review_comment
  split
  · exact Or.inl rfl
  · exact Or.inr rfl

/-- When the repo initializes, the changed-file list is non-empty, and the
sink does not raise, the run outcome's `review_text` is exactly the
formatted report over the reviewed files with `len(changed_files)` as the
stated file count. -/
theorem process_review_report (m : ReviewManager.ReviewManagerS) (detailed : Bool)
    (env : Env) (w : World)
    (hinit : w.initRepoError = none)
    (hch : (LLMReviewer.get_changed_files true env w).isEmpty = false)
    (b : Bool) (hb : w.sink = Except.ok b) :
    (ReviewManager.process_review m detailed env w).fst.review_text =
      ReviewManager.format_review_report detailed
        (LLMReviewer.process_changes w true (LLMReviewer.get_changed_files true env w))
        (LLMReviewer.get_changed_files true env w).length := by
  rcases post_review_comment_cases m w (ReviewManager.format_review_report detailed
      (LLMReviewer.process_changes w true (LLMReviewer.get_changed_files true env w))
      (LLMReviewer.get_changed_files true env w).length) with hp | hp <;>
  rcases Bool.eq_false_or_eq_true (optTruthy m.github_token) with ht | ht <;>
    simp [ReviewManager.process_review, hinit, hch, ht, hp, hb]

/-- The per-file loop distributes over list append. -/
theorem processLoop_append (w : World) (l1 l2 : List String) :
    LLMReviewer.processLoop w (l1 ++ l2)
      = LLMReviewer.processLoop w l1 ++ LLMReviewer.processLoop w l2 := by
  induction l1 with
  | nil => simp [LLMReviewer.processLoop]
  | cons a rest ih => simp [LLMReviewer.processLoop, ih]

/--
C1 counterexample: with the API key present but the forge token unset (a
"required configuration value" per the claim), the run is not treated as a
fatal configuration error: it proceeds to review the changed file (a service
contact) and finishes with `success = true`.
-/
theorem c1_config_counterexample :
    envNoForge.github_token = none ∧
    (GithubAction.runAction envNoForge wOneFile).fst.success = true ∧
    Event.review "a.py" ∈ (GithubAction.runAction envNoForge wOneFile).snd := by
  refine ⟨rfl, by decide, by decide⟩

/--
C1 (amended): only the API key is validated before fetching — its absence
aborts at construction with no service contact.  The forge token and PR
identifier are not validated up front: with the API key present the run
fetches and reviews regardless; a missing forge token skips delivery
entirely and yields `success = true`, while a present forge token with a
missing PR identifier makes delivery a no-op returning `False`, yielding
`success = false` only after fetch and review have already run.
-/
theorem c1_config_amended (env : Env) (w : World)
    (hinit : w.initRepoError = none)
    (hch : (LLMReviewer.get_changed_files true env w).isEmpty = false) :
    (optTruthy env.openai_api_key = false →
      GithubAction.runAction env w =
        (⟨false, "OPENAI_API_KEY environment variable is not set"⟩, [])) ∧
    (optTruthy env.openai_api_key = true → optTruthy env.github_token = false →
      (GithubAction.runAction env w).fst.success = true ∧
      (∀ t, Event.deliver t ∉ (GithubAction.runAction env w).snd) ∧
      (∀ p ∈ LLMReviewer.get_changed_files true env w,
        Event.review p ∈ (GithubAction.runAction env w).snd)) ∧
    (optTruthy env.openai_api_key = true → optTruthy env.github_token = true →
      optTruthy env.pr_number = false →
      (GithubAction.runAction env w).fst.success = false ∧
      (∀ t, Event.deliver t ∉ (GithubAction.runAction env w).snd) ∧
      (∀ p ∈ LLMReviewer.get_changed_files true env w,
        Event.review p ∈ (GithubAction.runAction env w).snd)) := by
  refine ⟨?_, ?_, ?_⟩
  · intro hk
    simp [GithubAction.runAction, ReviewManager.mkReviewManager, hk]
  · intro hk ht
    simp only [GithubAction.runAction, ReviewManager.mkReviewManager, hk, if_true]
    refine ⟨?_, ?_, ?_⟩
    · simp [ReviewManager.process_review, hinit, hch, ht]
    · intro t
      simp [ReviewManager.process_review, hinit, hch, ht]
    · intro p hp
      simp [ReviewManager.process_review, hinit, hch, ht]
      exact hp
  · intro hk ht hpr
    simp only [GithubAction.runAction, ReviewManager.mkReviewManager, hk, if_true]
    refine ⟨?_, ?_, ?_⟩
    · simp [ReviewManager.process_review, ReviewManager.post_review_comment,
        hinit, hch, ht, hpr]
    · intro t
      simp [ReviewManager.process_review, ReviewManager.post_review_comment,
        hinit, hch, ht, hpr]
    · intro p hp
      simp [ReviewManager.process_review, ReviewManager.post_review_comment,
        hinit, hch, ht, hpr]
      exact hp
/-- Witness for the amended C1 at the concrete no-forge-token run. -/
theorem c1_config_amended_witness :
    (GithubAction.runAction envNoForge wOneFile).fst.success = true ∧
    (∀ t, Event.deliver t ∉ (GithubAction.runAction envNoForge wOneFile).snd) ∧
    (∀ p ∈ LLMReviewer.get_changed_files true envNoForge wOneFile,
      Event.review p ∈ (GithubAction.runAction envNoForge wOneFile).snd) :=
  (c1_config_amended envNoForge wOneFile rfl (by decide)).2.1 rfl rfl

/--
C5: for every run that reaches the formatter (non-empty changed-file list,
no repo or sink exception), the report header states exactly
`len(changed_files)` — the number of changed-file inputs — regardless of
which files produced non-empty review text (the review oracle is
unconstrained).
-/
theorem c5_header_file_count (m : ReviewManager.ReviewManagerS) (detailed : Bool)
    (env : Env) (w : World)
    (hinit : w.initRepoError = none)
    (hch : (LLMReviewer.get_changed_files true env w).isEmpty = false)
    (hsink : ∃ b, w.sink = Except.ok b) :
    ∃ rest, (ReviewManager.process_review m detailed env w).fst.review_text =
      "# 🎉 Revisão de Código\n" ++ "\n" ++
      ("Analisei " ++ toString (LLMReviewer.get_changed_files true env w).length ++
        " arquivo(s) neste PR. Aqui está o resumo das principais observações:\n") ++ "\n" ++ rest := by
  obtain ⟨b, hb⟩ := hsink
  rw [process_review_report m detailed env w hinit hch b hb]
  exact format_header detailed _ _

/-- Witness for C5 at the concrete one-file run. -/
theorem c5_header_file_count_witness :
    ∃ rest, (ReviewManager.process_review mFull false envFull wOneFile).fst.review_text =
      "# 🎉 Revisão de Código\n" ++ "\n" ++
      ("Analisei " ++ toString (LLMReviewer.get_changed_files true envFull wOneFile).length ++
        " arquivo(s) neste PR. Aqui está o resumo das principais observações:\n") ++ "\n" ++ rest :=
  c5_header_file_count mFull false envFull wOneFile rfl (by decide) ⟨false, rfl⟩

/--
C6: an exception while reviewing one file is caught inside the per-file
loop and becomes a review entry tagged with that file's path whose text is
the error message; the loop continues and the remaining files are
processed exactly as they would have been.
-/
theorem c6_per_file_isolation (w : World) (pre : List String) (fp : String)
    (rest : List String) (e : String) (hf : w.fileReview fp = Except.error e) :
    LLMReviewer.process_changes w true (pre ++ fp :: rest) =
      LLMReviewer.process_changes w true pre ++
      (⟨fp, "⚠️ Error reviewing file: " ++ e⟩ :: LLMReviewer.process_changes w true rest) := by
  have hpc : ∀ files, LLMReviewer.process_changes w true files = LLMReviewer.processLoop w files :=
    fun _ => rfl
  rw [hpc, hpc, hpc, processLoop_append]
  simp [LLMReviewer.processLoop, hf]

/-- Witness for C6: the failing `bad.py` in the middle of three files. -/
theorem c6_per_file_isolation_witness :
    LLMReviewer.process_changes wErr true (["a.py"] ++ "bad.py" :: ["c.py"]) =
      LLMReviewer.process_changes wErr true ["a.py"] ++
      (⟨"bad.py", "⚠️ Error reviewing file: " ++ "boom"⟩ ::
        LLMReviewer.process_changes wErr true ["c.py"]) :=
  c6_per_file_isolation wErr ["a.py"] "bad.py" ["c.py"] "boom" rfl

/--
C7: whenever the delivery sink is actually invoked (a `deliver` event with
payload `t` exists) and it reports failure, the run outcome has
`success = false` while `review_text` equals the exact report text `t`
handed to the sink, and that text is non-empty.
-/
theorem c7_delivery_failure (m : ReviewManager.ReviewManagerS) (detailed : Bool)
    (env : Env) (w : World) (t : String)
    (hdel : Event.deliver t ∈ (ReviewManager.process_review m detailed env w).snd)
    (hs : w.sink = Except.ok false) :
    (ReviewManager.process_review m detailed env w).fst.success = false ∧
    (ReviewManager.process_review m detailed env w).fst.review_text = t ∧ t ≠ "" := by
  cases hinit : w.initRepoError with
  | some e => simp [ReviewManager.process_review, hinit] at hdel
  | none =>
    rcases Bool.eq_false_or_eq_true (LLMReviewer.get_changed_files true env w).isEmpty
      with hch | hch
    · simp [ReviewManager.process_review, hinit, hch] at hdel
    · rcases Bool.eq_false_or_eq_true (optTruthy m.github_token) with ht | ht
      · rcases post_review_comment_cases m w (ReviewManager.format_review_report detailed
            (LLMReviewer.process_changes w true (LLMReviewer.get_changed_files true env w))
            (LLMReviewer.get_changed_files true env w).length) with hp | hp
        · rw [hs] at hp
          simp [ReviewManager.process_review, hinit, hch, ht, hp] at hdel ⊢
          exact ⟨hdel ▸ rfl, hdel ▸ format_ne_empty _ _ _⟩
        · simp [ReviewManager.process_review, hinit, hch, ht, hp] at hdel
      · simp [ReviewManager.process_review, hinit, hch, ht] at hdel

/-- Witness for C7 at the concrete run whose sink returns `False`. -/
theorem c7_delivery_failure_witness :
    (ReviewManager.process_review mFull false envFull wOneFile).fst.success = false ∧
    (ReviewManager.process_review mFull false envFull wOneFile).fst.review_text = reportW ∧
    reportW ≠ "" :=
  c7_delivery_failure mFull false envFull wOneFile reportW
    (by rw [show (ReviewManager.process_review mFull false envFull wOneFile).snd
          = [Event.fetch, Event.review "a.py", Event.deliver reportW] from rfl]
        simp)
    rfl

/--
C8 counterexample: the recommendations section is not a fixed static
footer — with a review text containing a keyword-matching line the section
consists of content-derived bullets, not the static boilerplate, so it
depends on the review texts.
-/
theorem c8_static_footer_counterexample :
    ReviewManager.recommendationsSection [⟨"a.py", "linha 3: sugiro mudar"⟩] =
      ["## 💡 Principais Recomendações\n", "- **a.py**: linha 3: sugiro mudar\n"] ∧
    ReviewManager.recommendationsSection [⟨"a.py", "linha 3: sugiro mudar"⟩] ≠
      "## 💡 Principais Recomendações\n" :: ReviewManager.staticRecommendations := by
  constructor <;> decide

/--
C8 (amended): the recommendations section is data-driven — every scanned
recommendation (first five keyword-matching lines, tagged with the file
basename) appears as a bullet in the report — and the fixed boilerplate
bullets appear only as a fallback, when the keyword scan over the review
texts finds nothing.
-/
theorem c8_recommendations_amended (detailed : Bool) (reviews : List Review) (N : Nat) :
    (ReviewManager.key_recommendations reviews = [] →
      ∀ b ∈ ReviewManager.staticRecommendations,
        b ∈ ReviewManager.reportLines detailed reviews N) ∧
    (∀ r ∈ (ReviewManager.key_recommendations reviews).take 5,
      ("- " ++ r ++ "\n") ∈ ReviewManager.reportLines detailed reviews N) := by
  constructor
  · intro hk b hb
    have hsec : b ∈ ReviewManager.recommendationsSection reviews := by
      have hs : ReviewManager.recommendationsSection reviews =
          "## 💡 Principais Recomendações\n" :: ReviewManager.staticRecommendations := by
        simp [ReviewManager.recommendationsSection, hk]
      rw [hs]
      exact List.mem_cons_of_mem _ hb
    unfold ReviewManager.reportLines
    exact List.mem_append.mpr (Or.inl (List.mem_append.mpr (Or.inr hsec)))
  · intro r hr
    have hne : (ReviewManager.key_recommendations reviews).isEmpty = false := by
      cases hkr : ReviewManager.key_recommendations reviews with
      | nil => rw [hkr] at hr; simp at hr
      | cons a l => rfl
    have hsec : ("- " ++ r ++ "\n") ∈ ReviewManager.recommendationsSection reviews := by
      have hs : ReviewManager.recommendationsSection reviews =
          "## 💡 Principais Recomendações\n" ::
            ((ReviewManager.key_recommendations reviews).take 5).map
              (fun r => "- " ++ r ++ "\n") := by
        simp [ReviewManager.recommendationsSection, hne]
      rw [hs]
      exact List.mem_cons_of_mem _ (List.mem_map_of_mem _ hr)
    unfold ReviewManager.reportLines
    exact List.mem_append.mpr (Or.inl (List.mem_append.mpr (Or.inr hsec)))

/-- Witness for the amended C8: a content-derived bullet in the report lines. -/
theorem c8_recommendations_amended_witness :
    ("- " ++ "**a.py**: linha 3: sugiro mudar" ++ "\n") ∈
      ReviewManager.reportLines false [⟨"a.py", "linha 3: sugiro mudar"⟩] 1 :=
  (c8_recommendations_amended false [⟨"a.py", "linha 3: sugiro mudar"⟩] 1).2
    "**a.py**: linha 3: sugiro mudar" (by decide)

/--
C9: `github_action.main` tests `if not success:` on the dictionary returned
by `process_review`, which is always truthy; at the concrete run whose
delivery sink fails the run outcome has `success = false`, yet the process
exits with code 0 instead of the non-zero exit the claim (and the
surrounding code's evident intent) requires.
-/
theorem c9_exit_code_bug :
    (GithubAction.runAction envFull wOneFile).fst.success = false ∧
    GithubAction.mainAction envFull wOneFile = 0 :=
  ⟨by decide, by decide⟩

/--
C10: when `PR_BASE_SHA` or `PR_HEAD_SHA` is unset/empty or the diff
computation raises, the changed-file enumeration returns the empty list
rather than an error, the run outcome is `success = true` with the
"nothing to review" report, and the outcome (with its event trace) is
identical to that of any run whose changed-file enumeration is genuinely
empty.
-/
theorem c10_missing_sha_empty (m : ReviewManager.ReviewManagerS) (detailed : Bool)
    (env : Env) (w : World)
    (hinit : w.initRepoError = none)
    (hmiss : optTruthy env.pr_base_sha = false ∨ optTruthy env.pr_head_sha = false ∨
      w.diffRaises = true) :
    LLMReviewer.get_changed_files true env w = [] ∧
    ReviewManager.process_review m detailed env w =
      (⟨true, ReviewManager.nothingToReviewText⟩, [Event.fetch]) ∧
    (∀ env2 w2, w2.initRepoError = none → LLMReviewer.get_changed_files true env2 w2 = [] →
      ReviewManager.process_review m detailed env2 w2 =
        ReviewManager.process_review m detailed env w) := by
  have hch : LLMReviewer.get_changed_files true env w = [] := by
    rcases hmiss with h | h | h <;> simp [LLMReviewer.get_changed_files, h]
  refine ⟨hch, ?_, ?_⟩
  · simp [ReviewManager.process_review, hinit, hch]
  · intro env2 w2 h2i h2c
    simp [ReviewManager.process_review, hinit, h2i, hch, h2c]

/-- Witness for C10 at the concrete run with `PR_BASE_SHA` unset. -/
theorem c10_missing_sha_empty_witness :
    ReviewManager.process_review mFull false envNoSha wOneFile =
      (⟨true, ReviewManager.nothingToReviewText⟩, [Event.fetch]) :=
  (c10_missing_sha_empty mFull false envNoSha wOneFile rfl (Or.inl rfl)).2.1
